import Mathlib

/-!
Shallow embedding of the station-data plotting scripts
(`netcdf_visualizer2.py`, `plot_bars_v2.py`) and proofs of the
specification claims about them.

Conventions of the embedding:
* machine floats (`time.time()`, data values, scale factors) are modelled
  as exact rationals `ℚ`;
* a numpy array is modelled by its dtype kind, its shape, and its
  flattened data;
* external library calls (matplotlib draws, xarray engine opens) are
  modelled as total functions or as explicit `Except` results supplied
  by the environment;
* the filesystem state of the scratch directory is a list of file
  entries, each carrying whether `os.remove` would succeed on it.
-/

namespace StationPlots

/-! ## Temp-file janitor (`cleanup_temp_dir`, netcdf_visualizer2.py:23-34) -/

/-- One entry of the managed scratch directory `netcdf_temp_files`:
its name, whether it is a regular file (`os.path.isfile`), its
modification time (`os.path.getmtime`), and whether `os.remove`
would succeed on it (deletion failures are swallowed by the sweep). -/
structure FileEntry where
  name : String
  isFile : Bool
  mtime : ℚ
  removable : Bool
deriving DecidableEq, Repr

/-- The sweep attempts `os.remove` on an entry exactly when it is a
regular file and its age `now - mtime` exceeds 3600 seconds. -/
def shouldRemove (now : ℚ) (f : FileEntry) : Bool :=
  f.isFile && decide (now - f.mtime > 3600)

/-- `cleanup_temp_dir`: for every regular file older than one hour,
try `os.remove`; a failed removal (`removable = false`) is swallowed
and the entry stays.  Entries that are not attempted stay untouched. -/
def cleanup_temp_dir (now : ℚ) (files : List FileEntry) : List FileEntry :=
  files.filter (fun f => !(shouldRemove now f && f.removable))

/-- The sublist of entries on which the sweep attempts `os.remove`. -/
def sweepAttempts (now : ℚ) (files : List FileEntry) : List FileEntry :=
  files.filter (fun f => shouldRemove now f)

/-! ## Scratch-file naming (netcdf_visualizer2.py:144) -/

def TEMP_DIR : String := "netcdf_temp_files"

/-- Python `int()` on a nonnegative float: truncation toward zero. -/
def int_trunc (q : ℚ) : Int :=
  q.num / (q.den : Int)

/-- `temp_path = os.path.join(TEMP_DIR, f"temp_upload_{int(time.time())}.nc")` -/
def temp_upload_path (t : ℚ) : String :=
  TEMP_DIR ++ "/" ++ "temp_upload_" ++ toString (int_trunc t) ++ ".nc"

/-! ## Time-keyword exclusion (`is_time_related`, spatial_vars filter) -/

/-- numpy dtype kind characters relevant to the scripts
(`data.dtype.kind`): integer, unsigned, float, complex, boolean,
datetime64, string/object. -/
inductive DtypeKind where
  | intK | uintK | floatK | complexK | boolK | datetimeK | otherK
deriving DecidableEq, Repr

/-- `is_numeric`: `data.dtype.kind in 'iufc'`. -/
def numericKind (k : DtypeKind) : Bool :=
  match k with
  | .intK | .uintK | .floatK | .complexK => true
  | _ => false

def time_keywords : List String :=
  ["time", "date", "year", "month", "day", "hour", "minute", "second"]

/-- Python substring containment `pat in s`, on character lists:
`pat` is a prefix of some suffix of `s`. -/
def substrIn (pat : List Char) : List Char → Bool
  | [] => pat.isEmpty
  | c :: rest => pat.isPrefixOf (c :: rest) || substrIn pat rest

/-- `var_name.lower()`: the characters of the name, lowercased. -/
def lowerChars (s : String) : List Char :=
  s.data.map Char.toLower

/-- `is_time_related`: some keyword occurs as a substring of the
lowercased variable name (`kw in var_name.lower()`). -/
def is_time_related (var_name : String) : Bool :=
  time_keywords.any (fun kw => substrIn kw.data (lowerChars var_name))

/-- The metadata of one data variable that the spatial filter inspects:
its name, its dtype kind, and its number of dimensions. -/
structure VarMeta where
  name : String
  kind : DtypeKind
  ndim : Nat
deriving DecidableEq, Repr

/-- The `spatial_vars` loop (netcdf_visualizer2.py:194-203): skip a
variable when its name is time-related or its dtype is datetime64;
skip it when it has fewer than 2 dimensions; keep the rest in order. -/
def spatial_vars_of (all_vars : List VarMeta) : List VarMeta :=
  all_vars.filter (fun v =>
    !(is_time_related v.name || v.kind == .datetimeK) && !(v.ndim < 2))

/-! ## Engine-fallback loader (netcdf_visualizer2.py:152-164)

`xr.open_dataset(temp_path, engine=e)` is modelled by an environment
function `openF : String → Except String D`: `.ok d` when that engine
opens the file as dataset `d`, `.error msg` when it raises. -/

def engines : List String := ["netcdf4", "h5netcdf", "scipy"]

/-- The fallback loop: try each engine in order; on the first success
stop with the dataset; each failure appends the warning
`f"{engine} engine failed: {str(e)}"` and continues.  Returns the
emitted warnings and the dataset (`none` when every engine raised,
which the script then reports with a terminal error). -/
def try_engines {D : Type} (openF : String → Except String D) :
    List String → List String × Option D
  | [] => ([], none)
  | e :: rest =>
    match openF e with
    | .ok d => ([], some d)
    | .error msg =>
      let r := try_engines openF rest
      ((e ++ " engine failed: " ++ msg) :: r.1, r.2)

/-- The loader as run by the script, over the fixed engine list. -/
def load_dataset {D : Type} (openF : String → Except String D) :
    List String × Option D :=
  try_engines openF engines

/-! ## Dimensionality reducer (`reduce_to_2d`, netcdf_visualizer2.py:66-78) -/

/-- A dataset variable: its ordered dimension names and its contents,
indexed by one position per dimension. -/
structure DataArray where
  dims : List String
  values : List Nat → Int

/-- The names `reduce_to_2d` treats as spatial axes. -/
def spatial_dim_names : List String := ["latitude", "longitude", "lat", "lon"]

def isSpatialDim (d : String) : Bool := spatial_dim_names.contains d

/-- Re-expands a reduced index into a full index of the original
variable: spatial dimensions consume the next reduced position,
every other dimension is pinned to index 0 (the `isel` of
`reduce_to_2d`). -/
def expandIndex : List String → List Nat → List Nat
  | [], _ => []
  | d :: ds, idx =>
    if isSpatialDim d then idx.headD 0 :: expandIndex ds (idx.drop 1)
    else 0 :: expandIndex ds idx

/-- `reduce_to_2d`: a 2-dimensional variable is returned unchanged;
otherwise every dimension outside the spatial alias list is selected
at index 0 (and dropped); when no such dimension exists the variable
is returned unchanged (`if dim_indices else data_array`). -/
def reduce_to_2d (a : DataArray) : DataArray :=
  if a.dims.length = 2 then a
  else if a.dims.all isSpatialDim then a
  else
    { dims := a.dims.filter isSpatialDim,
      values := fun idx => a.values (expandIndex a.dims idx) }

/-! ## Numeric type normalizer (`process_data`, netcdf_visualizer2.py:56-64) -/

/-- A concrete numpy array: dtype kind, shape, and row-major data. -/
structure NArr where
  kind : DtypeKind
  shape : List Nat
  data : List ℚ

/-- `is_numeric(data)`: `data.dtype.kind in 'iufc'`. -/
def is_numeric (a : NArr) : Bool := numericKind a.kind

/-- The shape and data of the array `process_data` returns. -/
structure RawArr where
  shape : List Nat
  data : List ℚ
deriving DecidableEq, Repr

/-- `process_data`: numeric arrays are returned as `values * scale_factor`;
datetime64 arrays are converted elementwise by `pd.Timestamp(t).toordinal()`
(modelled by the environment function `toordinal`) with a warning;
anything else raises `ValueError`. -/
def process_data (toordinal : ℚ → ℚ) (a : NArr) (scale_factor : ℚ) :
    Except String RawArr :=
  if is_numeric a then
    .ok { shape := a.shape, data := a.data.map (fun x => x * scale_factor) }
  else if a.kind == .datetimeK then
    .ok { shape := [a.data.length], data := a.data.map toordinal }
  else
    .error "Unsupported data type"

/-! ## Coordinate broadcaster (netcdf_visualizer2.py:225-234) -/

/-- `np.meshgrid(x, y)` with the default `indexing='xy'`: both outputs
have shape `(y.length, x.length)`; the first repeats `x` along every
row, the second holds `y[i]` across row `i`. -/
def meshgrid (x y : List ℚ) : List (List ℚ) × List (List ℚ) :=
  (y.map (fun _ => x), y.map (fun yi => x.map (fun _ => yi)))

/-- The 1D/1D branch `lon, lat = np.meshgrid(lon, lat)`, returned as
`(lat_grid, lon_grid)`. -/
def broadcast_1d_coords (lat lon : List ℚ) : List (List ℚ) × List (List ℚ) :=
  let m := meshgrid lon lat
  (m.2, m.1)

/-! ## Renderer draw-path choice (netcdf_visualizer2.py:253-267)

The matplotlib draw calls themselves are external and modelled as
total; the embedded renderer chooses which of the two calls the
script issues. -/

inductive PlotPath where
  | pcolormesh | contourf
deriving DecidableEq, Repr

/-- The shape dispatch of the plotting block: `pcolormesh` when
`processed_data.shape == lat.shape`, otherwise a warning and
`contourf`; in the model both external draws complete, so the block
returns a value in either branch. -/
def render_field (dataShape latShape : List Nat) : Except String PlotPath :=
  if dataShape = latShape then .ok .pcolormesh
  else .ok .contourf

/-! ## Anomaly bars (`plot_bars_v2.py`, lines 89-120)

A CSV row is a `(Year, value)` pair of the selected parameter column. -/

/-- `df = df.sort_values('Year')`: stable sort of the rows by year. -/
def sort_by_year (rows : List (Int × ℚ)) : List (Int × ℚ) :=
  rows.mergeSort (fun a b => decide (a.1 ≤ b.1))

/-- `mean_value = df[parameter].mean()` over the whole column. -/
def column_mean (vals : List ℚ) : ℚ :=
  vals.sum / (vals.length : ℚ)

/-- `df['Anomaly'] = df[parameter] - mean_value`, computed on the
year-sorted frame. -/
def anomalies (rows : List (Int × ℚ)) : List ℚ :=
  let vals := (sort_by_year rows).map (fun r => r.2)
  vals.map (fun v => v - column_mean vals)

/-- `ax.bar(df['Year'], df['Anomaly'], ...)`: the plotted bar heights
are exactly the anomaly column. -/
def bar_heights (rows : List (Int × ℚ)) : List ℚ :=
  anomalies rows

/-! ## Theorems for the specification claims -/

/-- Claim C7: the temp-file janitor sweep is idempotent — with no new
files, unchanged ages, and unchanged deletion outcomes, sweeping twice
leaves the same directory state as sweeping once. -/
theorem claim_C7_janitor_idempotent (now : ℚ) (files : List FileEntry) :
    cleanup_temp_dir now (cleanup_temp_dir now files) = cleanup_temp_dir now files := by
  simp [cleanup_temp_dir, List.filter_filter]

/-- Claim C8: the sweep attempts to delete a regular file iff its age
strictly exceeds 3600 seconds; files aged at most one hour survive
untouched; and whether an entry survives depends only on that entry's
own age and deletion outcome, so one file's deletion failure cannot
affect the treatment of any other file. -/
theorem claim_C8_janitor_threshold (now : ℚ) (files : List FileEntry)
    (f : FileEntry) (hf : f ∈ files) (hreg : f.isFile = true) :
    (f ∈ sweepAttempts now files ↔ now - f.mtime > 3600) ∧
    (now - f.mtime ≤ 3600 → f ∈ cleanup_temp_dir now files) ∧
    (f ∈ cleanup_temp_dir now files ↔ (now - f.mtime > 3600 → f.removable = false)) := by
  refine ⟨?_, ?_, ?_⟩
  · simp [sweepAttempts, List.mem_filter, hf, shouldRemove, hreg]
  · intro hage
    simp [cleanup_temp_dir, List.mem_filter, hf, shouldRemove, hreg, not_lt.mpr hage]
  · simp only [cleanup_temp_dir, List.mem_filter, hf, true_and, shouldRemove, hreg,
      Bool.true_and, Bool.not_eq_true', Bool.and_eq_false_iff, decide_eq_false_iff_not,
      not_lt]
    constructor
    · rintro (hle | hrem)
      · intro hgt; exact absurd hgt (not_lt.mpr hle)
      · intro _; exact hrem
    · intro h
      by_cases hgt : 3600 < now - f.mtime
      · exact Or.inr (h hgt)
      · exact Or.inl (not_lt.mp hgt)

/-- A concrete directory entry: a regular scratch file half an hour old
at sweep time 10000, with deletion succeeding. -/
def exEntry : FileEntry := { name := "temp_upload_8200.nc", isFile := true,
                             mtime := 8200, removable := true }

/-- Witness for claim C8 at a concrete directory state: the half-hour-old
file is not among the attempted deletions and survives the sweep. -/
theorem claim_C8_witness :
    (exEntry ∉ sweepAttempts 10000 [exEntry]) ∧
    (exEntry ∈ cleanup_temp_dir 10000 [exEntry]) := by
  have h := claim_C8_janitor_threshold 10000 [exEntry] exEntry
    (List.mem_singleton.mpr rfl) rfl
  refine ⟨fun hmem => ?_, h.2.1 (by norm_num [exEntry])⟩
  have := h.1.mp hmem
  norm_num [exEntry] at this

/-- The upload instant 1000.2 s (= 5001/5) as an exact rational. -/
def exTimeA : ℚ := ⟨5001, 5, by decide, by decide⟩

/-- The upload instant 1000.7 s (= 10007/10) as an exact rational. -/
def exTimeB : ℚ := ⟨10007, 10, by decide, by decide⟩

/-- Claim C9 counterexample: two distinct upload instants inside the
same second (1000.2 s and 1000.7 s) receive the identical scratch-file
name `netcdf_temp_files/temp_upload_1000.nc`, so "simultaneous uploads
get distinct names, never colliding" fails. -/
theorem claim_C9_counterexample :
    exTimeA ≠ exTimeB ∧
    temp_upload_path exTimeA = temp_upload_path exTimeB ∧
    temp_upload_path exTimeA = "netcdf_temp_files/temp_upload_1000.nc" := by
  refine ⟨by decide, by decide, by decide⟩

/-- Claim C9 (amended): the scratch name is
`temp_upload_<int(time.time())>.nc`, a function of the truncated
integer second only; any two uploads whose timestamps truncate to the
same second receive the SAME (colliding) name. -/
theorem claim_C9_same_second_collision (t1 t2 : ℚ)
    (h : int_trunc t1 = int_trunc t2) :
    temp_upload_path t1 = temp_upload_path t2 := by
  simp [temp_upload_path, h]

/-- Witness for the amended claim C9 at the concrete instants 1000.2
and 1000.7. -/
theorem claim_C9_witness :
    int_trunc exTimeA = int_trunc exTimeB ∧
    temp_upload_path exTimeA = temp_upload_path exTimeB :=
  ⟨by decide, claim_C9_same_second_collision _ _ (by decide)⟩

/-- Claim C10: the spatial-variable filter excludes a variable whenever
a time keyword occurs anywhere in its lowercased name (or its dtype is
datetime64, or it has fewer than two dimensions); in particular the
name `Daytime_mean` is time-related (it contains the keyword `day`),
so such a variable is excluded even as a multi-dimensional non-time
field. -/
theorem claim_C10_keyword_exclusion (all_vars : List VarMeta) (v : VarMeta)
    (hv : v ∈ all_vars)
    (hex : is_time_related v.name = true ∨ v.kind = .datetimeK ∨ v.ndim < 2) :
    v ∉ spatial_vars_of all_vars ∧ is_time_related "Daytime_mean" = true := by
  refine ⟨fun hmem => ?_, by decide⟩
  have hp := (List.mem_filter.mp hmem).2
  rcases hex with h | h | h
  · simp [h] at hp
  · simp [h] at hp
  · simp [Nat.lt_iff_add_one_le.mp h, h] at hp

/-- Witness for claim C10: the 3-dimensional float variable named
`Daytime_mean` is excluded from the spatial list of a concrete dataset. -/
theorem claim_C10_witness :
    (⟨"Daytime_mean", .floatK, 3⟩ : VarMeta) ∉
      spatial_vars_of [⟨"Daytime_mean", .floatK, 3⟩, ⟨"precip", .floatK, 2⟩] :=
  (claim_C10_keyword_exclusion _ _ (List.mem_cons_self _ _)
    (Or.inl (by decide))).1

/-- Claim C5: when the processed field's shape disagrees with the
latitude grid's shape, the plotting block takes the contour-fill path
rather than the quadrilateral-mesh path, and (the external draws being
total) the render completes with a result rather than failing. -/
theorem claim_C5_contourf_fallback (dataShape latShape : List Nat)
    (h : dataShape ≠ latShape) :
    render_field dataShape latShape = .ok .contourf ∧
    render_field dataShape latShape ≠ .ok .pcolormesh ∧
    ∃ p, render_field dataShape latShape = .ok p := by
  simp [render_field, h]

/-- Witness for claim C5 at the spec's scenario: field shape (5,5),
coordinate grids shape (5,4). -/
theorem claim_C5_witness :
    render_field [5, 5] [5, 4] = .ok .contourf :=
  (claim_C5_contourf_fallback [5, 5] [5, 4] (by decide)).1

/-- Claim C1: the loader tries `netcdf4`, `h5netcdf`, `scipy` in that
order; it returns the dataset of the first engine that succeeds with
one warning per earlier failure; it ends with no dataset exactly when
every engine raises; and a file openable only by the third engine
yields exactly the two warnings of the first two engines followed by
success. -/
theorem claim_C1_engine_fallback {D : Type} (openF : String → Except String D) :
    ((load_dataset openF).2 = none ↔ ∀ e ∈ engines, ∃ m, openF e = .error m) ∧
    (∀ d, openF "netcdf4" = .ok d → load_dataset openF = ([], some d)) ∧
    (∀ m1 d, openF "netcdf4" = .error m1 → openF "h5netcdf" = .ok d →
      load_dataset openF = (["netcdf4 engine failed: " ++ m1], some d)) ∧
    (∀ m1 m2 d, openF "netcdf4" = .error m1 → openF "h5netcdf" = .error m2 →
      openF "scipy" = .ok d →
      load_dataset openF =
        (["netcdf4 engine failed: " ++ m1, "h5netcdf engine failed: " ++ m2],
         some d)) ∧
    (∀ m1 m2 m3, openF "netcdf4" = .error m1 → openF "h5netcdf" = .error m2 →
      openF "scipy" = .error m3 →
      load_dataset openF =
        (["netcdf4 engine failed: " ++ m1, "h5netcdf engine failed: " ++ m2,
          "scipy engine failed: " ++ m3], none)) := by
  refine ⟨?_, ?_, ?_, ?_, ?_⟩
  · rcases h1 : openF "netcdf4" with m1 | d1 <;>
      rcases h2 : openF "h5netcdf" with m2 | d2 <;>
      rcases h3 : openF "scipy" with m3 | d3 <;>
      simp [load_dataset, engines, try_engines, h1, h2, h3]
  · intro d h1
    simp [load_dataset, engines, try_engines, h1]
  · intro m1 d h1 h2
    simp [load_dataset, engines, try_engines, h1, h2]
  · intro m1 m2 d h1 h2 h3
    simp [load_dataset, engines, try_engines, h1, h2, h3]
  · intro m1 m2 m3 h1 h2 h3
    simp [load_dataset, engines, try_engines, h1, h2, h3]

/-- An environment in which only the third engine can open the upload. -/
def exOpen : String → Except String Nat :=
  fun e => if e = "scipy" then .ok 7 else .error "bad magic"

/-- Witness for claim C1: with only `scipy` succeeding, the loader
emits exactly the two warnings of the failed engines and returns the
dataset `scipy` opened. -/
theorem claim_C1_witness :
    load_dataset exOpen =
      (["netcdf4 engine failed: bad magic", "h5netcdf engine failed: bad magic"],
       some 7) :=
  (claim_C1_engine_fallback exOpen).2.2.2.1 "bad magic" "bad magic" 7 rfl rfl rfl

/-- The full index produced by `expandIndex` holds 0 at the position of
every non-spatial dimension. -/
theorem expandIndex_nonspatial_zero (ds : List String) :
    ∀ idx k, k < ds.length → isSpatialDim (ds.getD k "") = false →
      (expandIndex ds idx).getD k 1 = 0 := by
  induction ds with
  | nil => intro idx k hk _; simp at hk
  | cons d ds ih =>
    intro idx k hk hsp
    cases k with
    | zero =>
      simp only [List.getD_cons_zero] at hsp
      simp [expandIndex, hsp]
    | succ k =>
      simp only [List.getD_cons_succ] at hsp
      simp only [List.length_cons, Nat.succ_lt_succ_iff] at hk
      by_cases hd : isSpatialDim d
      · simp only [expandIndex, if_pos hd, List.getD_cons_succ]
        exact ih _ k hk hsp
      · simp only [expandIndex, if_neg hd, List.getD_cons_succ]
        exact ih _ k hk hsp

/-- Claim C2: for a variable whose dimension list holds exactly two
spatial names, `reduce_to_2d` keeps exactly the spatial axes (in
order), the result is 2-dimensional, its entries are read from the
original with every non-spatial axis pinned to index 0, and a variable
that is already 2D is returned unchanged. -/
theorem claim_C2_reduce_to_2d (a : DataArray)
    (h2 : a.dims.countP (fun d => isSpatialDim d) = 2) :
    (reduce_to_2d a).dims = a.dims.filter (fun d => isSpatialDim d) ∧
    (reduce_to_2d a).dims.length = 2 ∧
    (∀ i j, (reduce_to_2d a).values [i, j] = a.values (expandIndex a.dims [i, j])) ∧
    (∀ idx k, k < a.dims.length → isSpatialDim (a.dims.getD k "") = false →
      (expandIndex a.dims idx).getD k 1 = 0) ∧
    (a.dims.length = 2 → reduce_to_2d a = a) := by
  by_cases hlen : a.dims.length = 2
  · have hall : ∀ d ∈ a.dims, isSpatialDim d = true :=
      List.countP_eq_length.mp (h2.trans hlen.symm)
    have hfilter : a.dims.filter (fun d => isSpatialDim d) = a.dims :=
      List.filter_eq_self.mpr hall
    have hred : reduce_to_2d a = a := by simp [reduce_to_2d, hlen]
    obtain ⟨d1, d2, hdims⟩ := List.length_eq_two.mp hlen
    have hd1 : isSpatialDim d1 = true := hall d1 (by simp [hdims])
    have hd2 : isSpatialDim d2 = true := hall d2 (by simp [hdims])
    refine ⟨by rw [hred, hfilter], by rw [hred]; exact hlen, ?_,
      expandIndex_nonspatial_zero a.dims, fun _ => hred⟩
    intro i j
    rw [hred, hdims]
    simp [expandIndex, hd1, hd2]
  · have hnotall : a.dims.all isSpatialDim = false := by
      rcases Bool.eq_false_or_eq_true (a.dims.all isSpatialDim) with h | h
      · exfalso
        apply hlen
        rw [← h2]
        exact (List.countP_eq_length.mpr (by simpa [List.all_eq_true] using h)).symm
      · exact h
    have hred : reduce_to_2d a =
        { dims := a.dims.filter (fun d => isSpatialDim d),
          values := fun idx => a.values (expandIndex a.dims idx) } := by
      simp [reduce_to_2d, hlen, hnotall]
    refine ⟨by rw [hred], ?_, by rw [hred]; intro i j; rfl,
      expandIndex_nonspatial_zero a.dims, fun hc => absurd hc hlen⟩
    rw [hred]
    show (a.dims.filter (fun d => isSpatialDim d)).length = 2
    rw [← List.countP_eq_length_filter]
    exact h2

/-- A concrete 3-dimensional variable over (time, lat, lon). -/
def exArr : DataArray :=
  { dims := ["time", "lat", "lon"], values := fun idx => (idx.headD 0 : Int) }

/-- Witness for claim C2: the (time, lat, lon) variable reduces to the
two spatial axes. -/
theorem claim_C2_witness :
    exArr.dims.countP (fun d => isSpatialDim d) = 2 ∧
    (reduce_to_2d exArr).dims = ["lat", "lon"] :=
  ⟨by decide, by rw [(claim_C2_reduce_to_2d exArr (by decide)).1]; decide⟩

/-- Claim C3: on an array of numeric dtype kind (integer, unsigned,
float or complex), `process_data` succeeds with the elementwise
product of the data with the scale factor, preserving the shape and
the element count. -/
theorem claim_C3_numeric_normalizer (toordinal : ℚ → ℚ) (a : NArr) (s : ℚ)
    (h : is_numeric a = true) :
    process_data toordinal a s =
      .ok { shape := a.shape, data := a.data.map (fun x => x * s) } ∧
    (a.data.map (fun x => x * s)).length = a.data.length ∧
    ∀ i, i < a.data.length →
      (a.data.map (fun x => x * s)).getD i 0 = a.data.getD i 0 * s := by
  refine ⟨by simp [process_data, h], by simp, ?_⟩
  intro i hi
  rw [List.getD_eq_getElem?_getD, List.getD_eq_getElem?_getD, List.getElem?_map,
    List.getElem?_eq_getElem hi]
  simp

/-- A concrete numeric 2×2 float array. -/
def exNArr : NArr := { kind := .floatK, shape := [2, 2], data := [1, 2, 3, 4] }

/-- Witness for claim C3 at a concrete numeric array and scale factor 2. -/
theorem claim_C3_witness :
    is_numeric exNArr = true ∧
    process_data (fun x => x) exNArr 2 = .ok { shape := [2, 2], data := [2, 4, 6, 8] } := by
  refine ⟨rfl, ?_⟩
  rw [(claim_C3_numeric_normalizer (fun x => x) exNArr 2 rfl).1]
  norm_num [exNArr]

/-- `getD` of a mapped list, inside the bounds: the function applied
to the original entry (any inner default). -/
theorem map_getD_lt {α β : Type} (f : α → β) (l : List α) {i : Nat}
    (hi : i < l.length) (b : β) (a : α) :
    (l.map f).getD i b = f (l.getD i a) := by
  rw [List.getD_eq_getElem?_getD, List.getElem?_map, List.getElem?_eq_getElem hi,
    List.getD_eq_getElem?_getD, List.getElem?_eq_getElem hi]
  rfl

/-- Claim C4: broadcasting 1D latitude (length M) and 1D longitude
(length N) yields two M×N grids with `lat_grid[i,j] = lat[i]` and
`lon_grid[i,j] = lon[j]`: latitude varies along rows, longitude along
columns. -/
theorem claim_C4_coordinate_broadcaster (lat lon : List ℚ) (i j : Nat)
    (hi : i < lat.length) (hj : j < lon.length) :
    (broadcast_1d_coords lat lon).1.length = lat.length ∧
    (∀ row ∈ (broadcast_1d_coords lat lon).1, row.length = lon.length) ∧
    (broadcast_1d_coords lat lon).2.length = lat.length ∧
    (∀ row ∈ (broadcast_1d_coords lat lon).2, row.length = lon.length) ∧
    ((broadcast_1d_coords lat lon).1.getD i []).getD j 0 = lat.getD i 0 ∧
    ((broadcast_1d_coords lat lon).2.getD i []).getD j 0 = lon.getD j 0 := by
  simp only [broadcast_1d_coords, meshgrid]
  refine ⟨by simp, ?_, by simp, ?_, ?_, ?_⟩
  · intro row hrow
    obtain ⟨yi, _, hrow⟩ := List.mem_map.mp hrow
    simp [← hrow]
  · intro row hrow
    obtain ⟨yi, _, hrow⟩ := List.mem_map.mp hrow
    simp [← hrow]
  · rw [map_getD_lt (fun yi => List.map (fun _ => yi) lon) lat hi [] (0 : ℚ),
      map_getD_lt (fun _ => lat.getD i 0) lon hj (0 : ℚ) (0 : ℚ)]
  · rw [map_getD_lt (fun _ => lon) lat hi [] (0 : ℚ)]

/-- Witness for claim C4 at latitude [1,2,3], longitude [10,20],
position (1,0): the latitude grid holds lat[1] and the longitude grid
holds lon[0]. -/
theorem claim_C4_witness :
    ((broadcast_1d_coords [1, 2, 3] [10, 20]).1.getD 1 []).getD 0 0 =
      ([1, 2, 3] : List ℚ).getD 1 0 ∧
    ((broadcast_1d_coords [1, 2, 3] [10, 20]).2.getD 1 []).getD 0 0 =
      ([10, 20] : List ℚ).getD 0 0 :=
  ⟨(claim_C4_coordinate_broadcaster [1, 2, 3] [10, 20] 1 0 (by decide) (by decide)).2.2.2.2.1,
   (claim_C4_coordinate_broadcaster [1, 2, 3] [10, 20] 1 0 (by decide) (by decide)).2.2.2.2.2⟩

/-- Claim C6: the bars script's plotted bar heights are exactly the
anomalies, each the (year-sorted) parameter value minus the mean of
the whole column; on Year = [2000,2001,2002], Temp = [10,12,11] the
mean is 11 and the heights are [-1,1,0]. -/
theorem claim_C6_anomaly_bar_heights (rows : List (Int × ℚ)) :
    bar_heights rows =
      ((sort_by_year rows).map (fun r => r.2)).map
        (fun v => v - column_mean (rows.map (fun r => r.2))) ∧
    bar_heights [((2000 : Int), (10 : ℚ)), (2001, 12), (2002, 11)] = [-1, 1, 0] ∧
    column_mean [(10 : ℚ), 12, 11] = 11 := by
  have mean_sorted : ∀ rs : List (Int × ℚ),
      column_mean ((sort_by_year rs).map (fun r => r.2)) =
        column_mean (rs.map (fun r => r.2)) := by
    intro rs
    have hp := (List.mergeSort_perm rs (fun a b => decide (a.1 ≤ b.1))).map
      (fun r => r.2)
    simp only [column_mean, sort_by_year]
    rw [hp.sum_eq, hp.length_eq]
  have hmean : column_mean [(10 : ℚ), 12, 11] = 11 := by
    norm_num [column_mean]
  refine ⟨?_, ?_, hmean⟩
  · simp only [bar_heights, anomalies]
    rw [mean_sorted rows]
  · have hs : sort_by_year [((2000 : Int), (10 : ℚ)), (2001, 12), (2002, 11)] =
        [((2000 : Int), (10 : ℚ)), (2001, 12), (2002, 11)] :=
      List.mergeSort_of_sorted (by decide)
    simp only [bar_heights, anomalies, hs, List.map]
    rw [hmean]
    norm_num

end StationPlots
